import Mathlib

/-!
Verification development for the Davao earthquake timeline visualization
(`src/js/script.js`).  The temporal normalizer (`parseDateTime`, filtering,
sorting), the scale functions (`yScale`, `radiusScale`, `totalMinutes`,
`chartHeight`) and the pipeline `createChart` are embedded from the source.
The d3-force layout internals are not part of the repository's source; they
are modelled from the specification (section 4.2) where a claim needs them,
and each such definition says so in its doc comment.
-/

namespace Davao

/-! ## Character classes of the JavaScript regular expression

The source matches `/(\d+) (\w+) (\d+) - (\d+):(\d+) (AM|PM)/`.
`\d` is the ASCII digit class and `\w` is `[A-Za-z0-9_]`.  Because every
repetition in the pattern is followed by a character outside its own class,
greedy maximal-munch scanning is exactly equivalent to the backtracking
semantics of the JavaScript engine, and the engine returns the leftmost
match, which we model by trying every start position from the left. -/

def isDigitC (c : Char) : Bool := c.isDigit

def isWordC (c : Char) : Bool := c.isAlphanum || c = '_'

/-- Capture groups of a successful match of the source's pattern:
day digits, month word, year digits, hour digits, minute digits, AM/PM. -/
structure Caps where
  d1 : List Char
  w : List Char
  d2 : List Char
  d3 : List Char
  d4 : List Char
  ampm : String
deriving DecidableEq

/-- Attempt to match `(\d+) (\w+) (\d+) - (\d+):(\d+) (AM|PM)` at the head of
the character list (trailing characters are allowed, as in an unanchored
regular expression). -/
def matchAt (cs : List Char) : Option Caps :=
  let s1 := cs.span isDigitC
  if s1.1.isEmpty then none else
  match s1.2 with
  | ' ' :: r2 =>
    let s2 := r2.span isWordC
    if s2.1.isEmpty then none else
    match s2.2 with
    | ' ' :: r4 =>
      let s3 := r4.span isDigitC
      if s3.1.isEmpty then none else
      match s3.2 with
      | ' ' :: '-' :: ' ' :: r6 =>
        let s4 := r6.span isDigitC
        if s4.1.isEmpty then none else
        match s4.2 with
        | ':' :: r8 =>
          let s5 := r8.span isDigitC
          if s5.1.isEmpty then none else
          match s5.2 with
          | ' ' :: 'A' :: 'M' :: _ => some ⟨s1.1, s2.1, s3.1, s4.1, s5.1, "AM"⟩
          | ' ' :: 'P' :: 'M' :: _ => some ⟨s1.1, s2.1, s3.1, s4.1, s5.1, "PM"⟩
          | _ => none
        | _ => none
      | _ => none
    | _ => none
  | _ => none

/-- Leftmost match of the pattern anywhere in the string, as
`String.prototype.match` with a non-global regular expression. -/
def regexSearch : List Char → Option Caps
  | [] => none
  | c :: rest =>
    match matchAt (c :: rest) with
    | some r => some r
    | none => regexSearch rest

/-- Value of `parseInt` on a non-empty all-digit string. -/
def natOfDigits (l : List Char) : Nat :=
  l.foldl (fun n c => n * 10 + (c.toNat - '0'.toNat)) 0

/-- The fixed case-sensitive 12-entry month table of `parseDateTime`
(source lines 31-44), looked up on the first three characters of the
captured month word. -/
def monthLookup : String → Option Int
  | "Jan" => some 0
  | "Feb" => some 1
  | "Mar" => some 2
  | "Apr" => some 3
  | "May" => some 4
  | "Jun" => some 5
  | "Jul" => some 6
  | "Aug" => some 7
  | "Sep" => some 8
  | "Oct" => some 9
  | "Nov" => some 10
  | "Dec" => some 11
  | _ => none

/-! ## JavaScript `Date` arithmetic

`new Date(year, month, day, hour, minute)` builds a timezone-naive local
instant in the proleptic Gregorian calendar and lets every field roll over
arithmetically (month beyond 11 into the year, day beyond the month length
into the next month, hours and minutes into the day).  We model the instant
as the integral number of milliseconds since the epoch 1970-01-01T00:00. -/

/-- Days from 1970-01-01 of the Gregorian date `(y, m, d)` with `m` 1-based;
`d` may lie outside the month and rolls over arithmetically, exactly as the
civil-from-days algorithm used by JavaScript date normalization. -/
def daysFromCivil (y m d : Int) : Int :=
  let y1 := y - (if m ≤ 2 then 1 else 0)
  let era := Int.fdiv y1 400
  let yoe := y1 - era * 400
  let mp := m + (if 2 < m then -3 else 9)
  let doy := (153 * mp + 2) / 5 + d - 1
  let doe := yoe * 365 + yoe / 4 - yoe / 100 + doy
  era * 146097 + doe - 719468

/-- Milliseconds since 1970-01-01T00:00 of the calendar point
`y-m-d h:mi` (1-based month, no rollover intended by the caller); the
specification-side way of writing an expected instant. -/
def civilMs (y m d h mi : Int) : Int :=
  daysFromCivil y m d * 86400000 + h * 3600000 + mi * 60000

/-- Instant produced by `new Date(y, mo, d, h, mi)` with `mo` 0-based, as in
the source; two-digit years map to 1900-1999 and every field rolls over. -/
def mkJSDate (y mo d h mi : Int) : Int :=
  let y1 := if 0 ≤ y ∧ y ≤ 99 then y + 1900 else y
  let ym := y1 + Int.fdiv mo 12
  let m1 := Int.emod mo 12 + 1
  daysFromCivil ym m1 d * 86400000 + h * 3600000 + mi * 60000

/-- Result of `parseDateTime`: the JavaScript function returns `null` when
the pattern does not match, an *Invalid Date* object (whose time value is
NaN) when the month lookup fails, and a valid `Date` otherwise. -/
inductive JSDateResult where
  | nullRes : JSDateResult
  | invalidDate : JSDateResult
  | validDate (ms : Int) : JSDateResult
deriving DecidableEq

/-- The 12-hour to 24-hour conversion of source lines 57-58:
`if (ampm === 'PM' && hour !== 12) hour += 12;`
`if (ampm === 'AM' && hour === 12) hour = 0;`. -/
def convertHour (ampm : String) (h : Int) : Int :=
  let h1 := if ampm = "PM" ∧ h ≠ 12 then h + 12 else h
  if ampm = "AM" ∧ h1 = 12 then 0 else h1

/-- Embedding of `parseDateTime` (source lines 30-61). -/
def parseDateTime (s : String) : JSDateResult :=
  match regexSearch s.toList with
  | none => JSDateResult.nullRes
  | some caps =>
    let day : Int := natOfDigits caps.d1
    let year : Int := natOfDigits caps.d2
    let hour : Int := convertHour caps.ampm (natOfDigits caps.d3)
    let minute : Int := natOfDigits caps.d4
    match monthLookup (String.mk (caps.w.take 3)) with
    | none => JSDateResult.invalidDate
    | some mo => JSDateResult.validDate (mkJSDate year mo day hour minute)

/-! ## Batch normalization (source lines 69-76) -/

/-- A raw record: the `time` text and the numeric `magnitude` column. -/
structure Rec where
  time : String
  magnitude : ℚ
deriving DecidableEq

/-- A record annotated with its derived `date` field (`d.date =
parseDateTime(d.time)`, source lines 69-71). -/
structure PRec where
  raw : Rec
  date : JSDateResult
deriving DecidableEq

def annotate (l : List Rec) : List PRec :=
  l.map fun r => ⟨r, parseDateTime r.time⟩

/-- The filter `d.date !== null && !isNaN(d.date.getTime())`
(source lines 73-75): keeps exactly the valid dates. -/
def isVal : JSDateResult → Bool
  | JSDateResult.validDate _ => true
  | _ => false

def validData (l : List Rec) : List PRec :=
  (annotate l).filter fun p => isVal p.date

/-- Time value used by the comparator `(a, b) => a.date - b.date`
(source line 76); the filtered list only holds valid dates. -/
def instOf (p : PRec) : Int :=
  match p.date with
  | JSDateResult.validDate ms => ms
  | _ => 0

def leInst (a b : PRec) : Prop := instOf a ≤ instOf b

instance : DecidableRel leInst := fun a b => by
  unfold leInst; infer_instance

instance : IsTotal PRec leInst := ⟨fun a b => le_total (instOf a) (instOf b)⟩

instance : IsTrans PRec leInst := ⟨fun _ _ _ => le_trans⟩

/-- The filtered list sorted ascending by instant (source line 76). -/
def sortedData (l : List Rec) : List PRec :=
  List.insertionSort leInst (validData l)

/-! ## Scale functions (source lines 83-94, 122-133) -/

/-- `Math.ceil((endTime - startTime) / (1000 * 60))` (source line 85);
times in milliseconds. -/
def totalMinutes (t0 t1 : Int) : Int :=
  ⌈((t1 : ℚ) - (t0 : ℚ)) / (1000 * 60)⌉

/-- `const pixelsPerMinute = 15` (source line 93). -/
def pixelsPerMinute : Int := 15

/-- `const chartHeight = totalMinutes * pixelsPerMinute` (source line 94). -/
def chartHeight (t0 t1 : Int) : Int :=
  totalMinutes t0 t1 * pixelsPerMinute

/-- The d3 time scale with domain `[startTime, endTime]` and range
`[0, chartHeight]` (source lines 122-125): a linear interpolation on the
numeric time values. -/
def yScale (t0 t1 : Int) (t : ℚ) : ℚ :=
  (t - t0) / ((t1 : ℚ) - (t0 : ℚ)) * ((chartHeight t0 t1 : Int) : ℚ)

/-- The d3 square-root scale (source lines 127-133): an affine map of the
square root of the magnitude, sending domain `[m0, m1]` (the data's minimum
and maximum magnitude) to the fixed pixel range `[r0, r1]`
(`[10, 35]` on mobile, `[14, 45]` on desktop). -/
noncomputable def radiusScale (m0 m1 r0 r1 m : ℝ) : ℝ :=
  r0 + (Real.sqrt m - Real.sqrt m0) / (Real.sqrt m1 - Real.sqrt m0) * (r1 - r0)

/-! ## Layout engine

The force solver itself (`d3.forceSimulation`) is a library the repository
does not vendor; only its configuration is in the source (lines 394-405):
a y force toward `yScale(d.date)` with strength 1, an x force toward the
center line with strength 0.1, a collision force with per-circle radius
`radiusScale(d.magnitude) + 1.5` (line 401), and exactly 300 synchronous
ticks.  The solver internals below are modelled from the specification,
section 4.2: every circle starts at `(centerX, targetY)` with zero
velocity; each tick first applies the pairwise collision corrections and
then the two positional forces through a damped velocity update. -/

/-- Modelled from the spec: a correction is applied to a pair exactly when
the center distance is below the sum of the two configured collision
radii. -/
def collideApplies (r1 r2 d : ℝ) : Prop := d < r1 + r2

/-- The fraction of a pairwise collision correction taken by the circle of
radius `ri` against one of radius `rj`; modelled from the spec: the
correction is distributed so that the larger circle moves proportionally
less. -/
noncomputable def moveShare (ri rj : ℝ) : ℝ := rj ^ 2 / (ri ^ 2 + rj ^ 2)

/-- The collision predicate exactly as the claim words it: distance below
the sum of the two *drawn* radii plus a single fixed padding of 1.5px. -/
def claimCollide (rho1 rho2 d : ℝ) : Prop := d < rho1 + rho2 + 3 / 2

noncomputable instance (r1 r2 d : ℝ) : Decidable (collideApplies r1 r2 d) := by
  unfold collideApplies; infer_instance

/-- State of one circle during the relaxation: position, velocity, the
Step-A target y and the configured collision radius. -/
structure Node where
  x : ℝ
  y : ℝ
  vx : ℝ
  vy : ℝ
  ty : ℝ
  cr : ℝ

/-- Modelled from the spec: one pairwise collision correction, repulsive
along the line of centers, proportional to the overlap depth and split by
`moveShare`. -/
noncomputable def collidePair (a b : Node) : Node × Node :=
  let dx := b.x - a.x
  let dy := b.y - a.y
  let l := Real.sqrt (dx ^ 2 + dy ^ 2)
  if collideApplies a.cr b.cr l then
    let overlap := a.cr + b.cr - l
    let sa := moveShare a.cr b.cr
    let sb := moveShare b.cr a.cr
    ({ a with x := a.x - dx / l * overlap * sa, y := a.y - dy / l * overlap * sa },
     { b with x := b.x + dx / l * overlap * sb, y := b.y + dy / l * overlap * sb })
  else (a, b)

/-- Correct one circle against every later circle in the list. -/
noncomputable def collideOne (a : Node) : List Node → Node × List Node
  | [] => (a, [])
  | b :: bs =>
    let ab := collidePair a b
    let rest := collideOne ab.1 bs
    (rest.1, ab.2 :: rest.2)

theorem collideOne_snd_length (a : Node) (l : List Node) :
    ((collideOne a l).2).length = l.length := by
  induction l generalizing a with
  | nil => rfl
  | cons b bs ih => simp [collideOne, ih]

/-- Apply the collision force over every unordered pair of circles. -/
noncomputable def collideAll : List Node → List Node
  | [] => []
  | a :: rest =>
    let r := collideOne a rest
    r.1 :: collideAll r.2
termination_by l => l.length
decreasing_by simp [collideOne_snd_length]

/-- Modelled from the spec: one synchronous tick of the relaxation —
collision corrections, then the target-x force (strength 0.1 toward the
center line) and the target-y force (strength 1 toward the Step-A target),
through a damped velocity update. -/
noncomputable def tick (cx : ℝ) (ns : List Node) : List Node :=
  (collideAll ns).map fun n =>
    let vx := (n.vx + (cx - n.x) * (1 / 10)) * (3 / 5)
    let vy := (n.vy + (n.ty - n.y) * 1) * (3 / 5)
    { n with x := n.x + vx, y := n.y + vy, vx := vx, vy := vy }

/-- Iterate the tick a fixed number of times (300 in the source,
line 405). -/
noncomputable def ticksN : Nat → ℝ → List Node → List Node
  | 0, _, ns => ns
  | n + 1, cx, ns => ticksN n cx (tick cx ns)

/-- The Layout Engine contract of spec section 4.2: place every event at
`(centerX, timeScale(instant))` with zero velocity, run exactly 300 ticks,
return the positions.  `rFn` is the drawn radius; the configured collision
radius adds the 1.5px of source line 401. -/
noncomputable def layout {α : Type} (cx : ℝ) (rFn tyFn : α → ℝ)
    (es : List α) : List (ℝ × ℝ) :=
  (ticksN 300 cx (es.map fun e => ⟨cx, tyFn e, 0, 0, tyFn e, rFn e + 3 / 2⟩)).map
    fun n => (n.x, n.y)

/-! ## The pipeline (`createChart`, source lines 63-467)

`createChart` reads `validData[0].date` and `validData[length - 1].date`
without any emptiness guard (lines 83-84); on an empty filtered list the
JavaScript dereferences `undefined` and throws, which the embedding models
as `none`. -/

/-- Chart assembly on the already-normalized list: time range, chart
height, radius scale from the magnitude extent, then the layout. -/
noncomputable def buildChart (cx r0 r1 : ℝ) (ps : List PRec) :
    Option (Int × List (ℝ × ℝ)) :=
  match ps with
  | [] => none
  | p :: rest =>
    let t0 := instOf p
    let t1 := instOf (rest.getLastD p)
    let m0 := rest.foldl (fun m q => min m q.raw.magnitude) p.raw.magnitude
    let m1 := rest.foldl (fun m q => max m q.raw.magnitude) p.raw.magnitude
    some (chartHeight t0 t1,
      layout cx (fun q => radiusScale (m0 : ℝ) (m1 : ℝ) r0 r1 ((q.raw.magnitude : ℚ) : ℝ))
        (fun q => ((yScale t0 t1 ((instOf q : Int) : ℚ) : ℚ) : ℝ)) (p :: rest))

/-- Embedding of `createChart`'s core data path: normalize, then build the
chart from the sorted valid records. -/
noncomputable def createChartCore (cx r0 r1 : ℝ) (l : List Rec) :
    Option (Int × List (ℝ × ℝ)) :=
  buildChart cx r0 r1 (sortedData l)

/-! ## Claims -/

/-- C6: for well-formed input `parseDateTime` applies the 12-hour to
24-hour conversion — 12 AM maps to hour 0, 12 PM stays 12, H PM (1-11)
becomes H+12, H AM (1-11) stays H — and in particular
`"10 Oct 2025 - 5:14 PM"` parses to 2025-10-10T17:14,
`"10 Oct 2025 - 12:00 AM"` to 2025-10-10T00:00 and
`"10 Oct 2025 - 12:30 PM"` to 2025-10-10T12:30. -/
theorem c6_parse_correctness (h : Int) (hlo : 1 ≤ h) (hhi : h ≤ 11) :
    convertHour "PM" h = h + 12 ∧ convertHour "AM" h = h ∧
    convertHour "AM" 12 = 0 ∧ convertHour "PM" 12 = 12 ∧
    parseDateTime "10 Oct 2025 - 5:14 PM"
      = JSDateResult.validDate (civilMs 2025 10 10 17 14) ∧
    parseDateTime "10 Oct 2025 - 12:00 AM"
      = JSDateResult.validDate (civilMs 2025 10 10 0 0) ∧
    parseDateTime "10 Oct 2025 - 12:30 PM"
      = JSDateResult.validDate (civilMs 2025 10 10 12 30) := by
  refine ⟨?_, ?_, by decide, by decide, by decide, by decide, by decide⟩
  · simp [convertHour, show h ≠ 12 by omega]
  · simp [convertHour, show h ≠ 12 by omega]

theorem c6_parse_correctness_witness : convertHour "PM" 5 = 5 + 12 :=
  (c6_parse_correctness 5 (by decide) (by decide)).1

/-- C7 counterexample: an input whose month abbreviation is not in the
fixed 12-entry table still matches the pattern, and `parseDateTime` does
NOT return null on it (it returns an invalid date object). -/
theorem c7_counterexample :
    parseDateTime "10 Foo 2025 - 5:14 PM" ≠ JSDateResult.nullRes := by
  decide

/-- C7 amended: when the input fails to match the pattern `parseDateTime`
returns null (and, being a total function, never throws); an input that
matches the pattern but whose month abbreviation is not one of the 12
table entries yields an invalid (non-null) date, which the validity
filter then removes. -/
theorem c7_null_on_pattern_failure (s : String)
    (hs : regexSearch s.toList = none) :
    parseDateTime s = JSDateResult.nullRes ∧
    parseDateTime "10 Foo 2025 - 5:14 PM" = JSDateResult.invalidDate ∧
    isVal JSDateResult.invalidDate = false := by
  refine ⟨?_, by decide, rfl⟩
  unfold parseDateTime
  rw [hs]

theorem c7_null_on_pattern_failure_witness :
    parseDateTime "garbage" = JSDateResult.nullRes :=
  (c7_null_on_pattern_failure "garbage" (by decide)).1

/-- C10: `parseDateTime` performs no range validation — a day, hour or
minute beyond its calendar range rolls over into the adjacent month, day
or hour ("32 Jan" becomes 1 Feb, hour 13 PM becomes 1 AM next day, minute
99 spills into the next hour) — and such a record passes the validity
filter, lands in the normalized list and reaches the chart builder. -/
theorem c10_rollover_no_validation :
    parseDateTime "32 Jan 2025 - 5:14 PM"
      = JSDateResult.validDate (civilMs 2025 2 1 17 14) ∧
    parseDateTime "10 Oct 2025 - 13:30 PM"
      = JSDateResult.validDate (civilMs 2025 10 11 1 30) ∧
    parseDateTime "10 Oct 2025 - 5:99 PM"
      = JSDateResult.validDate (civilMs 2025 10 10 18 39) ∧
    sortedData [⟨"32 Jan 2025 - 5:14 PM", 3⟩]
      = [⟨⟨"32 Jan 2025 - 5:14 PM", 3⟩,
          JSDateResult.validDate (civilMs 2025 2 1 17 14)⟩] ∧
    createChartCore 0 14 45 [⟨"32 Jan 2025 - 5:14 PM", 3⟩]
      = buildChart 0 14 45
          [⟨⟨"32 Jan 2025 - 5:14 PM", 3⟩,
            JSDateResult.validDate (civilMs 2025 2 1 17 14)⟩] := by
  refine ⟨by decide, by decide, by decide, by decide, ?_⟩
  unfold createChartCore
  congr 1

/-- C8: the source never guards the empty filtered dataset — with zero
surviving records `createChart` dereferences `validData[0]` (undefined)
and aborts with a thrown TypeError (modelled `none`) instead of surfacing
a no-data condition; the required no-data branch does not exist. -/
theorem c8_empty_dataset_crash :
    sortedData [⟨"garbage", 5⟩] = [] ∧
    createChartCore 0 14 45 [⟨"garbage", 5⟩] = none := by
  constructor
  · decide
  · unfold createChartCore
    have h : sortedData [⟨"garbage", 5⟩] = [] := by decide
    rw [h]
    rfl

theorem countP_not_eq (p : Rec → Bool) (l : List Rec) :
    List.countP (fun a => decide ¬ p a = true) l
      = List.countP (fun a => ! p a) l := by
  apply List.countP_congr
  intro a _
  cases p a <;> simp

/-- C5: for N raw records of which K have unparseable or invalid
timestamps, the normalized list has exactly N-K records, is sorted
non-decreasing by instant, and is exactly the list the chart builder (and
hence the Layout Engine) receives. -/
theorem c5_filter_sort (l : List Rec) :
    (sortedData l).length
      = l.length - l.countP (fun r => ! isVal (parseDateTime r.time)) ∧
    List.Sorted leInst (sortedData l) ∧
    ∀ cx r0 r1 : ℝ,
      createChartCore cx r0 r1 l = buildChart cx r0 r1 (sortedData l) := by
  refine ⟨?_, List.sorted_insertionSort leInst (validData l),
    fun cx r0 r1 => rfl⟩
  have hperm := List.perm_insertionSort leInst (validData l)
  rw [show sortedData l = List.insertionSort leInst (validData l) from rfl,
    hperm.length_eq]
  unfold validData annotate
  rw [← List.countP_eq_length_filter, List.countP_map]
  have hsum := List.length_eq_countP_add_countP
    (p := fun r : Rec => isVal (parseDateTime r.time)) (l := l)
  rw [countP_not_eq] at hsum
  have hcomp : ((fun p : PRec => isVal p.date) ∘
      fun r : Rec => PRec.mk r (parseDateTime r.time))
      = fun r : Rec => isVal (parseDateTime r.time) := rfl
  rw [hcomp]
  omega

/-- C4: for a time range `[t0, t1]` with `t0 < t1`, the time scale sends
`t0` to 0 and `t1` to the chart height, is strictly monotone between them
and affine (linear) in the instant, and the chart height is the ceiling of
the spanned minutes times the fixed 15 pixels per minute. -/
theorem c4_time_scale (t0 t1 : Int) (h : t0 < t1) :
    yScale t0 t1 ((t0 : Int) : ℚ) = 0 ∧
    yScale t0 t1 ((t1 : Int) : ℚ) = ((chartHeight t0 t1 : Int) : ℚ) ∧
    (∀ a b : ℚ, ((t0 : Int) : ℚ) ≤ a → a < b → b ≤ ((t1 : Int) : ℚ) →
      yScale t0 t1 a < yScale t0 t1 b) ∧
    (∀ u v c : ℚ, yScale t0 t1 (c * u + (1 - c) * v)
      = c * yScale t0 t1 u + (1 - c) * yScale t0 t1 v) ∧
    chartHeight t0 t1 = ⌈(((t1 : Int) : ℚ) - ((t0 : Int) : ℚ)) / 60000⌉ * 15 := by
  have hd : (0 : ℚ) < ((t1 : Int) : ℚ) - ((t0 : Int) : ℚ) := by
    rw [sub_pos]
    exact_mod_cast h
  have hH : 0 < chartHeight t0 t1 := by
    unfold chartHeight totalMinutes pixelsPerMinute
    have hc : 0 < ⌈(((t1 : Int) : ℚ) - ((t0 : Int) : ℚ)) / (1000 * 60)⌉ :=
      Int.ceil_pos.mpr (by positivity)
    omega
  have hHq : (0 : ℚ) < ((chartHeight t0 t1 : Int) : ℚ) := by exact_mod_cast hH
  refine ⟨?_, ?_, ?_, ?_, ?_⟩
  · simp [yScale]
  · unfold yScale
    rw [div_self hd.ne', one_mul]
  · intro a b ha hab hb
    unfold yScale
    apply mul_lt_mul_of_pos_right _ hHq
    exact div_lt_div_of_pos_right (by linarith) hd
  · intro u v c
    unfold yScale
    ring
  · unfold chartHeight totalMinutes pixelsPerMinute
    norm_num

theorem c4_time_scale_witness : yScale 0 60000 (((0 : Int) : Int) : ℚ) = 0 :=
  (c4_time_scale 0 60000 (by decide)).1

/-- C9: on a domain `[m0, m1]` of magnitudes with `0 ≤ m0 < m1` and a pixel
range `[r0, r1]` with `r0 ≤ r1`, the radius scale is non-decreasing, maps
the domain endpoints to the range endpoints, and — area-proportionality,
the exact content behind "radiusScale(m)^2 approximately linear in m" —
when domain and range are anchored at zero the squared radius is exactly
linear in the magnitude. -/
theorem c9_radius_scale (m0 m1 r0 r1 a b : ℝ) (hm0 : 0 ≤ m0) (hm : m0 < m1)
    (hr : r0 ≤ r1) (ha : m0 ≤ a) (hab : a < b) (hb : b ≤ m1) :
    radiusScale m0 m1 r0 r1 a ≤ radiusScale m0 m1 r0 r1 b ∧
    radiusScale m0 m1 r0 r1 m0 = r0 ∧
    radiusScale m0 m1 r0 r1 m1 = r1 ∧
    ∀ m : ℝ, 0 ≤ m →
      (radiusScale 0 m1 0 r1 m) ^ 2 * m1 = m * r1 ^ 2 := by
  have hD : 0 < Real.sqrt m1 - Real.sqrt m0 :=
    sub_pos.mpr (Real.sqrt_lt_sqrt hm0 hm)
  have hm1 : 0 < m1 := lt_of_le_of_lt hm0 hm
  refine ⟨?_, ?_, ?_, ?_⟩
  · unfold radiusScale
    have hs : Real.sqrt a ≤ Real.sqrt b := Real.sqrt_le_sqrt hab.le
    apply add_le_add_left
    apply mul_le_mul_of_nonneg_right _ (sub_nonneg.mpr hr)
    exact (div_le_div_right hD).mpr (sub_le_sub_right hs _)
  · simp [radiusScale]
  · unfold radiusScale
    rw [div_self hD.ne', one_mul]
    ring
  · intro m hmn
    unfold radiusScale
    rw [Real.sqrt_zero, sub_zero, sub_zero, sub_zero, zero_add]
    rw [mul_pow, div_pow, Real.sq_sqrt hmn, Real.sq_sqrt hm1.le]
    field_simp

theorem c9_radius_scale_witness : radiusScale 0 4 0 45 0 = 0 :=
  (c9_radius_scale 0 4 0 45 1 4 (by norm_num) (by norm_num) (by norm_num)
    (by norm_num) (by norm_num) (by norm_num)).2.1

/-- C2 counterexample: with both drawn radii 10 and center distance 22 the
code's collision force applies a correction (the configured collision
radii are `10 + 1.5` each, and `22 < 23`), but the claimed threshold —
sum of the radii plus a single 1.5px padding — is `21.5`, so the claim's
"if and only if" fails at this input. -/
theorem c2_collide_counterexample :
    collideApplies (10 + 3 / 2) (10 + 3 / 2) 22 ∧ ¬ claimCollide 10 10 22 := by
  constructor
  · unfold collideApplies
    norm_num
  · unfold claimCollide
    norm_num

/-- C2 amended: a correction applies to a pair exactly when the
center-to-center distance is below the sum of the two drawn radii plus
1.5px of padding per circle — 3px in total, not 1.5px — and the
correction is split so the larger-radius circle moves proportionally
less. -/
theorem c2_collide_amended (rho1 rho2 d r1 r2 : ℝ)
    (h1 : 0 < r2) (h2 : r2 < r1) :
    (collideApplies (rho1 + 3 / 2) (rho2 + 3 / 2) d ↔ d < rho1 + rho2 + 3) ∧
    moveShare r1 r2 < moveShare r2 r1 := by
  constructor
  · unfold collideApplies
    constructor <;> intro <;> linarith
  · unfold moveShare
    rw [add_comm (r2 ^ 2)]
    apply div_lt_div_of_pos_right
    · exact pow_lt_pow_left h2 h1.le (by norm_num)
    · positivity

theorem c2_collide_amended_witness : moveShare 2 1 < moveShare 1 2 :=
  (c2_collide_amended 0 0 0 2 1 (by norm_num) (by norm_num)).2

theorem tick_singleton (cx ty r : ℝ) :
    tick cx [⟨cx, ty, 0, 0, ty, r⟩] = [⟨cx, ty, 0, 0, ty, r⟩] := by
  unfold tick
  rw [show collideAll [⟨cx, ty, 0, 0, ty, r⟩] = [⟨cx, ty, 0, 0, ty, r⟩] by
    simp [collideAll, collideOne]]
  simp

theorem ticksN_singleton (n : Nat) (cx ty r : ℝ) :
    ticksN n cx [⟨cx, ty, 0, 0, ty, r⟩] = [⟨cx, ty, 0, 0, ty, r⟩] := by
  induction n with
  | zero => rfl
  | succ k ih => rw [ticksN, tick_singleton, ih]

/-- C1: on a dataset with exactly one surviving event the layout is a
fixed point — no collision is possible, both forces vanish at the start
position, and the returned position is exactly the center-line x paired
with the time scale of the event's instant. -/
theorem c1_single_event (cx : ℝ) (rFn : PRec → ℝ) (t0 t1 : Int) (p : PRec) :
    layout cx rFn (fun q => ((yScale t0 t1 ((instOf q : Int) : ℚ) : ℚ) : ℝ)) [p]
      = [(cx, ((yScale t0 t1 ((instOf p : Int) : ℚ) : ℚ) : ℝ))] := by
  unfold layout
  rw [List.map_singleton, ticksN_singleton, List.map_singleton]

/-- C3: the Layout Engine is a pure function of its listed inputs — the
initial condition is the fixed `(centerX, targetY)` assignment with zero
velocity and no randomness enters any tick — so two runs on identical
input lists produce identical output positions. -/
theorem c3_deterministic (cx : ℝ) (rFn tyFn : PRec → ℝ)
    (l1 l2 : List PRec) (h : l1 = l2) :
    layout cx rFn tyFn l1 = layout cx rFn tyFn l2 := by
  rw [h]

theorem c3_deterministic_witness :
    layout 0 (fun _ => 1) (fun _ => 0)
        ([⟨⟨"x", 1⟩, JSDateResult.validDate 0⟩] : List PRec)
      = layout 0 (fun _ => 1) (fun _ => 0)
        ([⟨⟨"x", 1⟩, JSDateResult.validDate 0⟩] : List PRec) :=
  c3_deterministic 0 (fun _ => 1) (fun _ => 0) _ _ rfl
